import Mathlib

/-!
Verification development for the Orchestrator-Base repository: a
LangGraph-style video-editing agent whose tools are mocked stubs.
The Python source is shallowly embedded below: each tool function of
`src/tools/tools.py` becomes a Lean function returning an association
list that models the Python dict it builds, and the agent loop of
`src/agents/video_agent.py` is embedded as explicit state passing over
an `AgentState` record, with the LLM as an oracle parameter and the
`MemorySaver` checkpointer as a key-value store keyed by thread id.
-/

set_option linter.unusedVariables false

/-- Values appearing in the dicts returned by the tool stubs: every tool
returns strings, except `split_video` whose "media" is a list of strings. -/
inductive PyVal where
  | str : String → PyVal
  | list : List String → PyVal
deriving DecidableEq, Repr

/-- A Python dict as built by a dict literal: an association list in
insertion order. -/
abbrev PyDict := List (String × PyVal)

/-- Keys of a dict, in insertion order. -/
def PyDict.keys (d : PyDict) : List String := d.map Prod.fst

/-- Lookup of a key, as Python `d[k]`. -/
def PyDict.get (d : PyDict) (k : String) : Option PyVal :=
  (d.find? (fun p => p.1 = k)).map Prod.snd

/-- Floating point arguments of the tool stubs.  No tool body ever inspects
or computes with them (each body is a single `return` of a literal, except
the two format-dependent ones which only use string arguments), so they are
modelled as rationals, which carries all the information the bodies use. -/
abbrev PyFloat := Rat

/-- `tools.trim_video` (src/src/tools/tools.py:1). -/
def trim_video (video_s3_uri : String) (start_time end_time : PyFloat) : PyDict :=
  [("message", .str "Video trimmed successfully"),
   ("media", .str "s3://mock-bucket/output/trimmed_video.mp4")]

/-- `tools.split_video` (src/src/tools/tools.py:19). -/
def split_video (video_s3_uri : String) (split_time : PyFloat) : PyDict :=
  [("message", .str "Video split successfully"),
   ("media", .list ["s3://mock-bucket/output/split_part1.mp4",
                    "s3://mock-bucket/output/split_part2.mp4"])]

/-- `tools.merge_clips` (src/src/tools/tools.py:39). -/
def merge_clips (clip1_s3_uri clip2_s3_uri : String) : PyDict :=
  [("message", .str "Clips merged successfully"),
   ("media", .str "s3://mock-bucket/output/merged_video.mp4")]

/-- `tools.crop_frame` (src/src/tools/tools.py:56). -/
def crop_frame (video_s3_uri : String) (x y width height : Int) : PyDict :=
  [("message", .str "Video cropped successfully"),
   ("media", .str "s3://mock-bucket/output/cropped_video.mp4")]

/-- `tools.resize_video` (src/src/tools/tools.py:76). -/
def resize_video (video_s3_uri : String) (target_width target_height : Int) : PyDict :=
  [("message", .str "Video resized successfully"),
   ("media", .str "s3://mock-bucket/output/resized_video.mp4")]

/-- `tools.change_resolution` (src/src/tools/tools.py:94). -/
def change_resolution (video_s3_uri : String) (width height : Int) : PyDict :=
  [("message", .str "Video resolution changed successfully"),
   ("media", .str "s3://mock-bucket/output/resolution_changed_video.mp4")]

/-- `tools.adjust_frame_rate` (src/src/tools/tools.py:112). -/
def adjust_frame_rate (video_s3_uri : String) (target_fps : Int) : PyDict :=
  [("message", .str "Frame rate adjusted successfully"),
   ("media", .str "s3://mock-bucket/output/frame_rate_adjusted_video.mp4")]

/-- `tools.color_correct` (src/src/tools/tools.py:129). -/
def color_correct (video_s3_uri : String)
    (brightness contrast saturation : PyFloat) : PyDict :=
  [("message", .str "Color correction applied successfully"),
   ("media", .str "s3://mock-bucket/output/color_corrected_video.mp4")]

/-- `tools.add_transition` (src/src/tools/tools.py:148). -/
def add_transition (clip1_s3_uri clip2_s3_uri transition_type : String)
    (duration : PyFloat) : PyDict :=
  [("message", .str "Transition added successfully"),
   ("media", .str "s3://mock-bucket/output/transition_video.mp4")]

/-- `tools.add_overlay` (src/src/tools/tools.py:167). -/
def add_overlay (video_s3_uri overlay_image_s3_uri : String) (x y : Int) : PyDict :=
  [("message", .str "Overlay added successfully"),
   ("media", .str "s3://mock-bucket/output/overlay_video.mp4")]

/-- `tools.add_subtitles` (src/src/tools/tools.py:186). -/
def add_subtitles (video_s3_uri subtitles_s3_uri : String) : PyDict :=
  [("message", .str "Subtitles added successfully"),
   ("media", .str "s3://mock-bucket/output/subtitled_video.mp4")]

/-- `tools.add_captions` (src/src/tools/tools.py:203). -/
def add_captions (video_s3_uri text : String) (start_time end_time : PyFloat)
    (x y : Int) : PyDict :=
  [("message", .str "Captions added successfully"),
   ("media", .str "s3://mock-bucket/output/captioned_video.mp4")]

/-- `tools.add_soundtrack` (src/src/tools/tools.py:224). -/
def add_soundtrack (video_s3_uri audio_s3_uri : String)
    (start_time : PyFloat) : PyDict :=
  [("message", .str "Soundtrack added successfully"),
   ("media", .str "s3://mock-bucket/output/soundtrack_video.mp4")]

/-- `tools.adjust_volume` (src/src/tools/tools.py:242). -/
def adjust_volume (video_s3_uri : String) (volume_factor : PyFloat) : PyDict :=
  [("message", .str "Volume adjusted successfully"),
   ("media", .str "s3://mock-bucket/output/volume_adjusted_video.mp4")]

/-- `tools.remove_background_noise` (src/src/tools/tools.py:259). -/
def remove_background_noise (audio_s3_uri : String) : PyDict :=
  [("message", .str "Background noise removed successfully"),
   ("media", .str "s3://mock-bucket/output/cleaned_audio.mp3")]

/-- `tools.generate_thumbnail` (src/src/tools/tools.py:275). -/
def generate_thumbnail (video_s3_uri : String) (timestamp : PyFloat) : PyDict :=
  [("message", .str "Thumbnail generated successfully"),
   ("media", .str "s3://mock-bucket/output/thumbnail.png")]

/-- `tools.add_intro` (src/src/tools/tools.py:292). -/
def add_intro (video_s3_uri intro_clip_s3_uri : String) : PyDict :=
  [("message", .str "Intro added successfully"),
   ("media", .str "s3://mock-bucket/output/intro_added_video.mp4")]

/-- `tools.add_outro` (src/src/tools/tools.py:309). -/
def add_outro (video_s3_uri outro_clip_s3_uri : String) : PyDict :=
  [("message", .str "Outro added successfully"),
   ("media", .str "s3://mock-bucket/output/outro_added_video.mp4")]

/-- Python's `s.rstrip('/')`: remove every trailing `/` character. -/
def rstripSlash (s : String) : String :=
  String.mk ((s.data.reverse.dropWhile (fun c => c == '/')).reverse)

/-- `tools.export_video` (src/src/tools/tools.py:326).  The "media" field is
the f-string `f"{output_s3_uri.rstrip('/')}/exported_video.{output_format}"`. -/
def export_video (video_s3_uri output_format output_s3_uri : String) : PyDict :=
  [("message", .str "Video exported successfully"),
   ("media", .str (rstripSlash output_s3_uri ++ "/exported_video." ++ output_format))]

/-- `tools.change_format` (src/src/tools/tools.py:344).  The "media" field is
the f-string `f"s3://mock-bucket/output/converted_video.{output_format}"`. -/
def change_format (video_s3_uri output_format : String) : PyDict :=
  [("message", .str "Video format changed successfully"),
   ("media", .str ("s3://mock-bucket/output/converted_video." ++ output_format))]

example : PyDict.get (trim_video "v" 0 1) "media"
    = some (.str "s3://mock-bucket/output/trimmed_video.mp4") := by rfl

example : rstripSlash "s3://b//" = "s3://b" := by decide

/-- One invocation of a tool function of the tools module: one constructor
per function defined in `src/src/tools/tools.py`, carrying that function's
arguments. -/
inductive ToolCall where
  | trim_video (video_s3_uri : String) (start_time end_time : PyFloat)
  | split_video (video_s3_uri : String) (split_time : PyFloat)
  | merge_clips (clip1_s3_uri clip2_s3_uri : String)
  | crop_frame (video_s3_uri : String) (x y width height : Int)
  | resize_video (video_s3_uri : String) (target_width target_height : Int)
  | change_resolution (video_s3_uri : String) (width height : Int)
  | adjust_frame_rate (video_s3_uri : String) (target_fps : Int)
  | color_correct (video_s3_uri : String) (brightness contrast saturation : PyFloat)
  | add_transition (clip1_s3_uri clip2_s3_uri transition_type : String) (duration : PyFloat)
  | add_overlay (video_s3_uri overlay_image_s3_uri : String) (x y : Int)
  | add_subtitles (video_s3_uri subtitles_s3_uri : String)
  | add_captions (video_s3_uri text : String) (start_time end_time : PyFloat) (x y : Int)
  | add_soundtrack (video_s3_uri audio_s3_uri : String) (start_time : PyFloat)
  | adjust_volume (video_s3_uri : String) (volume_factor : PyFloat)
  | remove_background_noise (audio_s3_uri : String)
  | generate_thumbnail (video_s3_uri : String) (timestamp : PyFloat)
  | add_intro (video_s3_uri intro_clip_s3_uri : String)
  | add_outro (video_s3_uri outro_clip_s3_uri : String)
  | export_video (video_s3_uri output_format output_s3_uri : String)
  | change_format (video_s3_uri output_format : String)
deriving DecidableEq, Repr

/-- Dispatch an invocation to the corresponding tool function. -/
def runTool : ToolCall → PyDict
  | .trim_video v s e => trim_video v s e
  | .split_video v t => split_video v t
  | .merge_clips c1 c2 => merge_clips c1 c2
  | .crop_frame v x y w h => crop_frame v x y w h
  | .resize_video v w h => resize_video v w h
  | .change_resolution v w h => change_resolution v w h
  | .adjust_frame_rate v f => adjust_frame_rate v f
  | .color_correct v b c s => color_correct v b c s
  | .add_transition c1 c2 t d => add_transition c1 c2 t d
  | .add_overlay v o x y => add_overlay v o x y
  | .add_subtitles v s => add_subtitles v s
  | .add_captions v t s e x y => add_captions v t s e x y
  | .add_soundtrack v a s => add_soundtrack v a s
  | .adjust_volume v f => adjust_volume v f
  | .remove_background_noise a => remove_background_noise a
  | .generate_thumbnail v t => generate_thumbnail v t
  | .add_intro v i => add_intro v i
  | .add_outro v o => add_outro v o
  | .export_video v f o => export_video v f o
  | .change_format v f => change_format v f

/-- The `__name__` of the underlying Python function of an invocation. -/
def toolNameOf : ToolCall → String
  | .trim_video .. => "trim_video"
  | .split_video .. => "split_video"
  | .merge_clips .. => "merge_clips"
  | .crop_frame .. => "crop_frame"
  | .resize_video .. => "resize_video"
  | .change_resolution .. => "change_resolution"
  | .adjust_frame_rate .. => "adjust_frame_rate"
  | .color_correct .. => "color_correct"
  | .add_transition .. => "add_transition"
  | .add_overlay .. => "add_overlay"
  | .add_subtitles .. => "add_subtitles"
  | .add_captions .. => "add_captions"
  | .add_soundtrack .. => "add_soundtrack"
  | .adjust_volume .. => "adjust_volume"
  | .remove_background_noise .. => "remove_background_noise"
  | .generate_thumbnail .. => "generate_thumbnail"
  | .add_intro .. => "add_intro"
  | .add_outro .. => "add_outro"
  | .export_video .. => "export_video"
  | .change_format .. => "change_format"

/-- The names of the functions defined in `src/src/tools/tools.py`, in
definition order. -/
def tools_module_function_names : List String :=
  ["trim_video", "split_video", "merge_clips", "crop_frame", "resize_video",
   "change_resolution", "adjust_frame_rate", "color_correct", "add_transition",
   "add_overlay", "add_subtitles", "add_captions", "add_soundtrack",
   "adjust_volume", "remove_background_noise", "generate_thumbnail",
   "add_intro", "add_outro", "export_video", "change_format"]

/-- The static `tool_functions` list of `_register_tools`
(src/src/agents/video_agent.py:76), by function name, in list order. -/
def tool_functions_list : List String :=
  ["trim_video", "split_video", "merge_clips", "crop_frame", "resize_video",
   "change_resolution", "adjust_frame_rate", "color_correct", "add_transition",
   "add_overlay", "add_subtitles", "add_captions", "add_soundtrack",
   "adjust_volume", "remove_background_noise", "generate_thumbnail",
   "add_intro", "add_outro", "export_video", "change_format"]

/-- The names of the registered tools produced by `_register_tools`: the
LangChain `tool(func)` wrapper names each tool after the wrapped function
(`func.__name__`), so registration preserves the names of
`tool_functions_list` one-for-one. -/
def registered_tool_names : List String := tool_functions_list

/-- The tool bodies in an explicit world-passing form: each Python body is a
single `return` of a dict literal with no file, network, or other external
access, so the embedded body returns the pure result and threads any ambient
world `w` through unchanged, whatever the world type `W` is. -/
def runToolW (W : Type) (c : ToolCall) (w : W) : PyDict × W :=
  (runTool c, w)

/-- A tool call requested by the LLM in an AIMessage: a call id plus the
invocation itself (its `name` is `toolNameOf call`, its `args` the
constructor's arguments). -/
structure ToolCallReq where
  id : String
  call : ToolCall
deriving DecidableEq, Repr

/-- The LangChain message kinds the agent handles: HumanMessage,
SystemMessage, AIMessage (with its `tool_calls` list) and ToolMessage
(with its `tool_call_id`). -/
inductive Message where
  | human (content : String)
  | system (content : String)
  | ai (content : String) (tool_calls : List ToolCallReq)
  | tool (content : String) (tool_call_id : String)
deriving DecidableEq, Repr

/-- `AgentState` (src/src/agents/video_agent.py:20): the graph state, a
message list under the `add_messages` append reducer plus the current
video URI. -/
structure AgentState where
  messages : List Message
  current_video_uri : Option String
deriving DecidableEq, Repr

/-- `_should_continue` (src/src/agents/video_agent.py:210): "end" on an
empty message list; "continue" when the last message is an AIMessage whose
`tool_calls` list is truthy (non-empty); "end" otherwise. -/
def should_continue (state : AgentState) : String :=
  match state.messages.getLast? with
  | none => "end"
  | some last_message =>
    match last_message with
    | .ai _ tool_calls => if tool_calls.isEmpty then "end" else "continue"
    | _ => "end"

/-- The literal text of the system prompt f-string before the interpolated
`{video_uri}` (src/src/agents/video_agent.py:131). -/
def system_prompt_before_uri : String :=
  "\nYou are a professional video editing assistant. You can help users edit videos by calling various video editing tools.\n\nCURRENT VIDEO URI: "

/-- The hand-written "Available tools" lines of the system prompt, one
literal per line, in prompt order (src/src/agents/video_agent.py:137-156). -/
def tool_list_lines : List String :=
  ["- trim_video: Trim video between start and end times\n",
   "- split_video: Split video into two clips at a specific time\n",
   "- merge_clips: Merge two video clips sequentially\n",
   "- crop_frame: Crop video frame to specific region\n",
   "- resize_video: Resize video to target dimensions\n",
   "- change_resolution: Change video resolution\n",
   "- adjust_frame_rate: Adjust video frame rate\n",
   "- color_correct: Apply color correction (brightness, contrast, saturation)\n",
   "- add_transition: Add transition effects between clips\n",
   "- add_overlay: Overlay image on video\n",
   "- add_subtitles: Add subtitle file to video\n",
   "- add_captions: Add custom text captions\n",
   "- add_soundtrack: Add audio soundtrack\n",
   "- adjust_volume: Adjust video audio volume\n",
   "- remove_background_noise: Remove noise from audio\n",
   "- generate_thumbnail: Generate thumbnail from video\n",
   "- add_intro: Add intro clip before main video\n",
   "- add_outro: Add outro clip after main video\n",
   "- export_video: Export video to specific format\n",
   "- change_format: Change video file format\n"]

/-- Concatenation of a list of strings, in order. -/
def concatStrings : List String → String
  | [] => ""
  | s :: rest => s ++ concatStrings rest

/-- The header of the tool list in the prompt. -/
def system_prompt_tools_header : String := "\n\nAvailable tools:\n"

/-- The instruction block closing the system prompt
(src/src/agents/video_agent.py:158-169). -/
def system_prompt_instructions : String :=
  "\nWhen a user provides a video editing request:\n1. Analyze what they want to do\n2. Use the CURRENT VIDEO URI provided above for all tool calls\n3. Determine which tools to use\n4. Call the appropriate tools with correct parameters (including the video URI)\n5. If multiple operations are needed, call them in sequence\n6. Provide clear feedback about what was done\n\nIMPORTANT: Always use the CURRENT VIDEO URI provided above when calling tools. If no video URI is provided, ask the user to provide one.\n\nAlways ask for clarification if the request is ambiguous or missing required parameters.\n"

/-- The literal text of the system prompt f-string after the interpolated
`{video_uri}` (src/src/agents/video_agent.py:134-169), written as the
concatenation of its hand-written pieces: the tools header, the twenty
tool lines, and the closing instruction block. -/
def system_prompt_after_uri : String :=
  system_prompt_tools_header ++ concatStrings tool_list_lines ++ system_prompt_instructions

/-- `_create_system_message` (src/src/agents/video_agent.py:129): the
content of the returned SystemMessage, an f-string interpolating the
current video URI. -/
def system_message_content (video_uri : String) : String :=
  system_prompt_before_uri ++ video_uri ++ system_prompt_after_uri

/-- Python `x or default` for an optional string: the default replaces both
`None` and the empty (falsy) string. -/
def pyOrDefault (v : Option String) (d : String) : String :=
  match v with
  | some s => if s = "" then d else s
  | none => d

/-- The LLM as an oracle: from the prepared message list, either an
exception (modelling a raised error from the provider) or the AIMessage
response, given by its content and its requested tool calls. -/
def LLM : Type := List Message → Except String (String × List ToolCallReq)

/-- `_call_agent` (src/src/agents/video_agent.py:172): prepend the system
message to the non-system messages of the state, invoke the LLM, re-raise
its exception if any, and otherwise append the AIMessage response to the
state (the `add_messages` reducer merges `{"messages": [response]}` by
appending). -/
def call_agent (llm : LLM) (state : AgentState) : Except String AgentState :=
  let current_video_uri := pyOrDefault state.current_video_uri "No video URI provided"
  let system_message := Message.system (system_message_content current_video_uri)
  let messages_for_llm :=
    system_message :: state.messages.filter
      (fun msg => match msg with | .system _ => false | _ => true)
  match llm messages_for_llm with
  | .error e => .error e
  | .ok (content, tool_calls) =>
      .ok { state with messages := state.messages ++ [.ai content tool_calls] }

/-- Rendering of a tool result dict to the string content of a ToolMessage.
The exact text is the framework ToolNode stringification; no verified
property depends on its precise shape, only on which thread the resulting
messages are stored under. -/
def render_tool_result (d : PyDict) : String :=
  String.intercalate ", "
    (d.map (fun p => p.1 ++ ": " ++ match p.2 with
      | .str s => s
      | .list l => String.intercalate ", " l))

/-- The framework ToolNode (`workflow.add_node("tools", self.tool_node)`):
executes every tool call of the last AIMessage against the tools module and
appends one ToolMessage per call, carrying that call's id. -/
def tool_node (state : AgentState) : AgentState :=
  match state.messages.getLast? with
  | some (.ai _ tool_calls) =>
      { state with
        messages := state.messages ++
          tool_calls.map (fun req => Message.tool (render_tool_result (runTool req.call)) req.id) }
  | _ => state

/-- The compiled graph's execution loop (`_create_graph`,
src/src/agents/video_agent.py:106): entry point "agent"; the conditional
edge maps `_should_continue`'s "continue" to the "tools" node and "end" to
END; "tools" loops back to "agent".  `fuel` is the framework recursion
limit; exhausting it raises, as LangGraph's GraphRecursionError does.
Returns the run's outcome together with the last checkpointed state. -/
def graph_loop (llm : LLM) : Nat → AgentState → Except String AgentState × AgentState
  | 0, s => (.error "Recursion limit reached", s)
  | fuel + 1, s =>
    match call_agent llm s with
    | .error e => (.error e, s)
    | .ok s' =>
      if should_continue s' = "continue" then
        graph_loop llm fuel (tool_node s')
      else
        (.ok s', s')

/-- The MemorySaver checkpointer: a key-value store of per-thread graph
states, keyed by thread id. -/
def Store : Type := String → Option AgentState

/-- Writing a thread's checkpoint into the store. -/
def Store.update (store : Store) (thread_id : String) (v : AgentState) : Store :=
  fun t => if t = thread_id then some v else store t

/-- `self.graph.invoke(initial_state, config)` with
`config = {"configurable": {"thread_id": thread_id}}`: load the thread's
prior checkpoint, merge the input through the state channels
(`add_messages` appends the input messages; `current_video_uri` is a
last-value channel overwritten by the input), run the loop, and persist the
reached state under this thread id only. -/
def graph_invoke (llm : LLM) (fuel : Nat) (input : AgentState) (thread_id : String)
    (store : Store) : Except String AgentState × Store :=
  let prior_messages := match store thread_id with
    | some s => s.messages
    | none => []
  let s0 : AgentState := ⟨prior_messages ++ input.messages, input.current_video_uri⟩
  let r := graph_loop llm fuel s0
  (r.1, Store.update store thread_id r.2)

/-- The dict returned by `process_request`. -/
structure ProcResult where
  final_output : String
  messages : List Message
  current_video_uri : Option String
  success : Bool
deriving DecidableEq, Repr

/-- The final-output extraction of `process_request`
(src/src/agents/video_agent.py:247): walk the final messages in reverse and
take the first AIMessage with truthy (non-empty) content; default
"No response generated". -/
def extract_final_output (final_messages : List Message) : String :=
  match final_messages.reverse.find?
      (fun msg => match msg with | .ai c _ => c != "" | _ => false) with
  | some (.ai c _) => c
  | _ => "No response generated"

/-- `process_request` (src/src/agents/video_agent.py:228): build the initial
state from the user input and the video URI, invoke the graph under the
thread id, and either return the success dict, or catch any exception and
return the error dict.  The store is returned alongside because the
checkpointer has persisted the run. -/
def process_request (llm : LLM) (fuel : Nat) (user_input : String)
    (video_uri : Option String) (thread_id : String) (store : Store) :
    ProcResult × Store :=
  match graph_invoke llm fuel ⟨[.human user_input], video_uri⟩ thread_id store with
  | (.ok final_state, store2) =>
      (⟨extract_final_output final_state.messages, final_state.messages,
        final_state.current_video_uri, true⟩, store2)
  | (.error e, store2) =>
      (⟨"Error processing request: " ++ e, [], video_uri, false⟩, store2)

/-- One entry of the history returned by `get_conversation_history`
(timestamps are always `getattr(msg, "timestamp", None) = None` and are
omitted). -/
structure HistEntry where
  type : String
  content : String
  tool_call_id : Option String
deriving DecidableEq, Repr

/-- The rendering loop of `get_conversation_history`
(src/src/agents/video_agent.py:282): human messages verbatim; AIMessages
with their called tool names appended and dropped when the resulting
content is empty; tool messages with their call id; system messages
skipped. -/
def history_of_messages (messages : List Message) : List HistEntry :=
  (messages.map (fun msg =>
    match msg with
    | .human c => [HistEntry.mk "human" c none]
    | .ai c tool_calls =>
        let content :=
          if tool_calls.isEmpty then c
          else c ++ " [Called tools: " ++
            String.intercalate ", " (tool_calls.map (fun tc => toolNameOf tc.call)) ++ "]"
        if content = "" then [] else [HistEntry.mk "ai" content none]
    | .tool c id => [HistEntry.mk "tool" c (some id)]
    | .system _ => [])).flatten

/-- `get_conversation_history` (src/src/agents/video_agent.py:270): read the
thread's checkpoint from memory; an absent or empty state yields `[]`. -/
def get_conversation_history (thread_id : String) (store : Store) : List HistEntry :=
  match store thread_id with
  | none => []
  | some current_state => history_of_messages current_state.messages

/-- The data of `rstripSlash` is `rdropWhile` of the data: both remove the
trailing elements satisfying the predicate. -/
lemma rstripSlash_data (s : String) :
    (rstripSlash s).data = s.data.rdropWhile (fun c => c == '/') := rfl

/-- Removing the trailing slashes splits a character list into the kept
prefix and a run of slashes. -/
lemma rdropWhile_slash_split (l : List Char) :
    ∃ n, l = l.rdropWhile (fun c => c == '/') ++ List.replicate n '/' := by
  refine ⟨(l.reverse.takeWhile (fun c => c == '/')).length, ?_⟩
  have h1 : l.reverse.takeWhile (fun c => c == '/')
      = List.replicate (l.reverse.takeWhile (fun c => c == '/')).length '/' := by
    refine List.eq_replicate_length.mpr ?_
    intro x hx
    simpa using List.mem_takeWhile_imp hx
  have hrep : (l.reverse.takeWhile (fun c => c == '/')).reverse
      = List.replicate (l.reverse.takeWhile (fun c => c == '/')).length '/' := by
    conv_lhs => rw [h1]
    simp [List.reverse_replicate]
  rw [List.rdropWhile, ← hrep, ← List.reverse_append,
    List.takeWhile_append_dropWhile, List.reverse_reverse]

/-- `rstripSlash` behaves as Python's `rstrip('/')`: the result is the input
with a run of trailing `/` removed, and it does not itself end in `/`. -/
lemma rstripSlash_spec (s : String) :
    (∃ n, s.data = (rstripSlash s).data ++ List.replicate n '/') ∧
      (rstripSlash s).data.getLast? ≠ some '/' := by
  constructor
  · rw [rstripSlash_data]
    exact rdropWhile_slash_split s.data
  · rw [rstripSlash_data]
    rcases h : s.data.rdropWhile (fun c => c == '/') with _ | ⟨a, l⟩
    · simp
    · rw [← h]
      have hne : s.data.rdropWhile (fun c => c == '/') ≠ [] := by simp [h]
      have hlast := List.rdropWhile_last_not (fun c => c == '/') s.data hne
      rw [List.getLast?_eq_getLast _ hne]
      intro hcontra
      apply hlast
      simp only [Option.some.injEq] at hcontra
      simp [hcontra]

/-- C1, counterexample: the claim that every tool's "media" field is a fixed
hardcoded path independent of all arguments fails on `export_video`, whose
"media" varies with the `output_format` argument at this concrete input. -/
theorem C1_counterexample_media_depends_on_args :
    PyDict.get (export_video "s3://in/v.mp4" "mp4" "s3://out") "media"
      ≠ PyDict.get (export_video "s3://in/v.mp4" "mov" "s3://out") "media" := by
  decide

/-- C1, amended: every tool of the tools module except `export_video` and
`change_format` returns a fixed, hardcoded mock "media" path that does not
depend on any of its arguments; the "media" of `export_video` is built from
its `output_s3_uri` and `output_format` arguments (but not from
`video_s3_uri`), and the "media" of `change_format` is built from its
`output_format` argument (but not from `video_s3_uri`). -/
theorem C1_amended_media_fixed_except_export_and_change_format :
    (∀ v s e, PyDict.get (trim_video v s e) "media"
      = some (.str "s3://mock-bucket/output/trimmed_video.mp4")) ∧
    (∀ v t, PyDict.get (split_video v t) "media"
      = some (.list ["s3://mock-bucket/output/split_part1.mp4",
                     "s3://mock-bucket/output/split_part2.mp4"])) ∧
    (∀ c1 c2, PyDict.get (merge_clips c1 c2) "media"
      = some (.str "s3://mock-bucket/output/merged_video.mp4")) ∧
    (∀ v x y w h, PyDict.get (crop_frame v x y w h) "media"
      = some (.str "s3://mock-bucket/output/cropped_video.mp4")) ∧
    (∀ v w h, PyDict.get (resize_video v w h) "media"
      = some (.str "s3://mock-bucket/output/resized_video.mp4")) ∧
    (∀ v w h, PyDict.get (change_resolution v w h) "media"
      = some (.str "s3://mock-bucket/output/resolution_changed_video.mp4")) ∧
    (∀ v f, PyDict.get (adjust_frame_rate v f) "media"
      = some (.str "s3://mock-bucket/output/frame_rate_adjusted_video.mp4")) ∧
    (∀ v b c s, PyDict.get (color_correct v b c s) "media"
      = some (.str "s3://mock-bucket/output/color_corrected_video.mp4")) ∧
    (∀ c1 c2 t d, PyDict.get (add_transition c1 c2 t d) "media"
      = some (.str "s3://mock-bucket/output/transition_video.mp4")) ∧
    (∀ v o x y, PyDict.get (add_overlay v o x y) "media"
      = some (.str "s3://mock-bucket/output/overlay_video.mp4")) ∧
    (∀ v s, PyDict.get (add_subtitles v s) "media"
      = some (.str "s3://mock-bucket/output/subtitled_video.mp4")) ∧
    (∀ v t s e x y, PyDict.get (add_captions v t s e x y) "media"
      = some (.str "s3://mock-bucket/output/captioned_video.mp4")) ∧
    (∀ v a s, PyDict.get (add_soundtrack v a s) "media"
      = some (.str "s3://mock-bucket/output/soundtrack_video.mp4")) ∧
    (∀ v f, PyDict.get (adjust_volume v f) "media"
      = some (.str "s3://mock-bucket/output/volume_adjusted_video.mp4")) ∧
    (∀ a, PyDict.get (remove_background_noise a) "media"
      = some (.str "s3://mock-bucket/output/cleaned_audio.mp3")) ∧
    (∀ v t, PyDict.get (generate_thumbnail v t) "media"
      = some (.str "s3://mock-bucket/output/thumbnail.png")) ∧
    (∀ v i, PyDict.get (add_intro v i) "media"
      = some (.str "s3://mock-bucket/output/intro_added_video.mp4")) ∧
    (∀ v o, PyDict.get (add_outro v o) "media"
      = some (.str "s3://mock-bucket/output/outro_added_video.mp4")) ∧
    (∀ v v2 f o, export_video v f o = export_video v2 f o) ∧
    (PyDict.get (export_video "v" "mp4" "s3://out") "media"
      ≠ PyDict.get (export_video "v" "avi" "s3://out") "media") ∧
    (PyDict.get (export_video "v" "mp4" "s3://out1") "media"
      ≠ PyDict.get (export_video "v" "mp4" "s3://out2") "media") ∧
    (∀ v v2 f, change_format v f = change_format v2 f) ∧
    (PyDict.get (change_format "v" "mp4") "media"
      ≠ PyDict.get (change_format "v" "avi") "media") :=
  ⟨fun _ _ _ => rfl, fun _ _ => rfl, fun _ _ => rfl, fun _ _ _ _ _ => rfl,
   fun _ _ _ => rfl, fun _ _ _ => rfl, fun _ _ => rfl, fun _ _ _ _ => rfl,
   fun _ _ _ _ => rfl, fun _ _ _ _ => rfl, fun _ _ => rfl,
   fun _ _ _ _ _ _ => rfl, fun _ _ _ => rfl, fun _ _ => rfl, fun _ => rfl,
   fun _ _ => rfl, fun _ _ => rfl, fun _ _ => rfl, fun _ _ _ _ => rfl,
   by decide, by decide, fun _ _ _ => rfl, by decide⟩

/-- C6: for all arguments, `export_video` returns the success message
"Video exported successfully" and a "media" equal to `output_s3_uri` with
every trailing slash removed, followed by "/exported_video." and
`output_format`; the result is independent of `video_s3_uri` and does
depend on the other two arguments. -/
theorem C6_export_video_media_formula :
    ∀ video_s3_uri output_format output_s3_uri : String,
      (PyDict.get (export_video video_s3_uri output_format output_s3_uri) "message"
        = some (.str "Video exported successfully")) ∧
      (PyDict.get (export_video video_s3_uri output_format output_s3_uri) "media"
        = some (.str (rstripSlash output_s3_uri ++ "/exported_video." ++ output_format))) ∧
      (∃ n, output_s3_uri.data
        = (rstripSlash output_s3_uri).data ++ List.replicate n '/') ∧
      ((rstripSlash output_s3_uri).data.getLast? ≠ some '/') ∧
      (∀ v2, export_video v2 output_format output_s3_uri
        = export_video video_s3_uri output_format output_s3_uri) ∧
      (PyDict.get (export_video "v" "mp4" "s3://out") "media"
        ≠ PyDict.get (export_video "v" "avi" "s3://out") "media") ∧
      (PyDict.get (export_video "v" "mp4" "s3://out1") "media"
        ≠ PyDict.get (export_video "v" "mp4" "s3://out2") "media") :=
  fun _ output_format output_s3_uri =>
    ⟨rfl, rfl, (rstripSlash_spec output_s3_uri).1, (rstripSlash_spec output_s3_uri).2,
     fun _ => rfl, by decide, by decide⟩

/-- C8: every tool function is deterministic and side-effect free: in the
world-passing embedding the ambient world (of any type) is returned
unchanged, the dict produced is independent of the world, and equal
invocations produce equal results. -/
theorem C8_tools_deterministic_and_pure :
    ∀ (W : Type) (c : ToolCall) (w w2 : W),
      (runToolW W c w).2 = w ∧
      (runToolW W c w).1 = (runToolW W c w2).1 ∧
      (runToolW W c w).1 = runTool c ∧
      (∀ c2 : ToolCall, c2 = c → runTool c2 = runTool c) :=
  fun _ _ _ _ => ⟨rfl, rfl, rfl, fun _ h => congrArg runTool h⟩

/-- C8 witness: the purity properties evaluated at a concrete invocation. -/
theorem C8_tools_deterministic_and_pure_witness :
    (runToolW Nat (.trim_video "s3://v.mp4" 0 10) 7).2 = 7 ∧
    (runToolW Nat (.trim_video "s3://v.mp4" 0 10) 7).1
      = (runToolW Nat (.trim_video "s3://v.mp4" 0 10) 99).1 ∧
    (runToolW Nat (.trim_video "s3://v.mp4" 0 10) 7).1
      = runTool (.trim_video "s3://v.mp4" 0 10) ∧
    runTool (.trim_video "s3://v.mp4" 0 10) = runTool (.trim_video "s3://v.mp4" 0 10) := by
  have h := C8_tools_deterministic_and_pure Nat (.trim_video "s3://v.mp4" 0 10) 7 99
  exact ⟨h.1, h.2.1, h.2.2.1, h.2.2.2 _ rfl⟩

/-- C4: the tools module defines exactly twenty functions; `_register_tools`
registers exactly the same twenty from its static list, without duplicates,
each registered tool named after its underlying function; every invocation
is an invocation of a registered tool, and every registered name is the
name of a tools-module invocation. -/
theorem C4_twenty_tools_registered :
    tools_module_function_names.length = 20 ∧
    registered_tool_names = tools_module_function_names ∧
    registered_tool_names.length = 20 ∧
    registered_tool_names.Nodup ∧
    (∀ c : ToolCall, toolNameOf c ∈ registered_tool_names) ∧
    (∀ n ∈ registered_tool_names, ∃ c : ToolCall, toolNameOf c = n) := by
  refine ⟨by decide, rfl, by decide, by decide, ?_, ?_⟩
  · intro c
    cases c <;> simp [toolNameOf, registered_tool_names, tool_functions_list]
  · intro n hn
    fin_cases hn
    · exact ⟨.trim_video "" 0 0, rfl⟩
    · exact ⟨.split_video "" 0, rfl⟩
    · exact ⟨.merge_clips "" "", rfl⟩
    · exact ⟨.crop_frame "" 0 0 0 0, rfl⟩
    · exact ⟨.resize_video "" 0 0, rfl⟩
    · exact ⟨.change_resolution "" 0 0, rfl⟩
    · exact ⟨.adjust_frame_rate "" 0, rfl⟩
    · exact ⟨.color_correct "" 1 1 1, rfl⟩
    · exact ⟨.add_transition "" "" "" 0, rfl⟩
    · exact ⟨.add_overlay "" "" 0 0, rfl⟩
    · exact ⟨.add_subtitles "" "", rfl⟩
    · exact ⟨.add_captions "" "" 0 0 0 0, rfl⟩
    · exact ⟨.add_soundtrack "" "" 0, rfl⟩
    · exact ⟨.adjust_volume "" 1, rfl⟩
    · exact ⟨.remove_background_noise "", rfl⟩
    · exact ⟨.generate_thumbnail "" 0, rfl⟩
    · exact ⟨.add_intro "" "", rfl⟩
    · exact ⟨.add_outro "" "", rfl⟩
    · exact ⟨.export_video "" "" "", rfl⟩
    · exact ⟨.change_format "" "", rfl⟩

/-- C4 witness: the registration facts evaluated at a concrete tool name. -/
theorem C4_twenty_tools_registered_witness :
    ("change_format" ∈ registered_tool_names ∧
      ∃ c : ToolCall, toolNameOf c = "change_format") ∧
    toolNameOf (.export_video "v" "mp4" "s3://o") ∈ registered_tool_names := by
  have h := C4_twenty_tools_registered
  exact ⟨⟨by decide, h.2.2.2.2.2 "change_format" (by decide)⟩,
    h.2.2.2.2.1 (.export_video "v" "mp4" "s3://o")⟩

/-- A list is an infix of anything that surrounds it. -/
lemma infix_append_full {α : Type} (a b : List α) {l m : List α}
    (h : l <:+: m) : l <:+: a ++ m ++ b :=
  h.trans ⟨a, b, rfl⟩

/-- Every member of a string list is an infix of the concatenation. -/
lemma data_concatStrings_of_mem {s : String} :
    ∀ {l : List String}, s ∈ l → s.data <:+: (concatStrings l).data := by
  intro l
  induction l with
  | nil => intro h; cases h
  | cons a t ih =>
    intro h
    rcases List.mem_cons.mp h with rfl | hmem
    · show s.data <:+: (s ++ concatStrings t).data
      rw [String.data_append]
      exact (List.prefix_append _ _).isInfix
    · show s.data <:+: (a ++ concatStrings t).data
      rw [String.data_append]
      exact (ih hmem).trans (List.suffix_append _ _).isInfix

/-- C7: the system prompt built by `_create_system_message` contains every
one of the twenty registered tool names as a substring, and embeds the
current video URI passed to it. -/
theorem C7_system_prompt_enumerates_tools :
    ∀ video_uri : String,
      (∀ n ∈ registered_tool_names, n.data <:+: (system_message_content video_uri).data) ∧
      video_uri.data <:+: (system_message_content video_uri).data := by
  intro u
  have hdata : (system_message_content u).data
      = system_prompt_before_uri.data ++ u.data ++ system_prompt_after_uri.data := by
    simp [system_message_content, String.data_append]
  have hpost : system_prompt_after_uri.data
      = system_prompt_tools_header.data ++ (concatStrings tool_list_lines).data
        ++ system_prompt_instructions.data := by
    simp [system_prompt_after_uri, String.data_append]
  refine ⟨?_, ?_⟩
  · intro n hn
    have hline : ∃ line, line ∈ tool_list_lines ∧ n.data <:+: line.data := by
      fin_cases hn
      · exact ⟨"- trim_video: Trim video between start and end times\n", by decide, by decide⟩
      · exact ⟨"- split_video: Split video into two clips at a specific time\n", by decide, by decide⟩
      · exact ⟨"- merge_clips: Merge two video clips sequentially\n", by decide, by decide⟩
      · exact ⟨"- crop_frame: Crop video frame to specific region\n", by decide, by decide⟩
      · exact ⟨"- resize_video: Resize video to target dimensions\n", by decide, by decide⟩
      · exact ⟨"- change_resolution: Change video resolution\n", by decide, by decide⟩
      · exact ⟨"- adjust_frame_rate: Adjust video frame rate\n", by decide, by decide⟩
      · exact ⟨"- color_correct: Apply color correction (brightness, contrast, saturation)\n", by decide, by decide⟩
      · exact ⟨"- add_transition: Add transition effects between clips\n", by decide, by decide⟩
      · exact ⟨"- add_overlay: Overlay image on video\n", by decide, by decide⟩
      · exact ⟨"- add_subtitles: Add subtitle file to video\n", by decide, by decide⟩
      · exact ⟨"- add_captions: Add custom text captions\n", by decide, by decide⟩
      · exact ⟨"- add_soundtrack: Add audio soundtrack\n", by decide, by decide⟩
      · exact ⟨"- adjust_volume: Adjust video audio volume\n", by decide, by decide⟩
      · exact ⟨"- remove_background_noise: Remove noise from audio\n", by decide, by decide⟩
      · exact ⟨"- generate_thumbnail: Generate thumbnail from video\n", by decide, by decide⟩
      · exact ⟨"- add_intro: Add intro clip before main video\n", by decide, by decide⟩
      · exact ⟨"- add_outro: Add outro clip after main video\n", by decide, by decide⟩
      · exact ⟨"- export_video: Export video to specific format\n", by decide, by decide⟩
      · exact ⟨"- change_format: Change video file format\n", by decide, by decide⟩
    obtain ⟨line, hmem, hinf⟩ := hline
    have h2 : n.data <:+: (concatStrings tool_list_lines).data :=
      hinf.trans (data_concatStrings_of_mem hmem)
    have h3 : n.data <:+: system_prompt_after_uri.data := by
      rw [hpost]
      exact infix_append_full _ _ h2
    rw [hdata]
    exact h3.trans (List.suffix_append _ _).isInfix
  · rw [hdata]
    exact ⟨system_prompt_before_uri.data, system_prompt_after_uri.data, rfl⟩

/-- C7 witness: a concrete tool name and a concrete URI occur in the
concrete prompt. -/
theorem C7_system_prompt_enumerates_tools_witness :
    ("trim_video" ∈ registered_tool_names) ∧
    ("trim_video" : String).data <:+: (system_message_content "s3://bucket/vid.mp4").data ∧
    ("s3://bucket/vid.mp4" : String).data <:+: (system_message_content "s3://bucket/vid.mp4").data :=
  ⟨by decide,
   (C7_system_prompt_enumerates_tools "s3://bucket/vid.mp4").1 "trim_video" (by decide),
   (C7_system_prompt_enumerates_tools "s3://bucket/vid.mp4").2⟩

/-- A concrete LLM oracle that always answers "done" with no tool calls. -/
def llm_end : LLM := fun _ => .ok ("done", [])

/-- The empty checkpointer store. -/
def emptyStore : Store := fun _ => none

/-- C2: `_should_continue` returns "continue" exactly when the last message
exists, is an AIMessage, and has a non-empty `tool_calls`; in every other
case, including the empty message list, it returns "end"; and in the
compiled graph's loop, "continue" routes to the tools node (which then
loops back to the agent) while anything else ends the run with the state
just produced. -/
theorem C2_should_continue_routing :
    ∀ s : AgentState,
      (should_continue s = "continue" ↔
        ∃ c tcs, s.messages.getLast? = some (.ai c tcs) ∧ tcs ≠ []) ∧
      (should_continue s = "continue" ∨ should_continue s = "end") ∧
      (¬ (∃ c tcs, s.messages.getLast? = some (.ai c tcs) ∧ tcs ≠ []) →
        should_continue s = "end") ∧
      (s.messages = [] → should_continue s = "end") ∧
      (∀ (llm : LLM) (fuel : Nat) (st st2 : AgentState),
        call_agent llm st = .ok st2 → should_continue st2 = "continue" →
        graph_loop llm (fuel + 1) st = graph_loop llm fuel (tool_node st2)) ∧
      (∀ (llm : LLM) (fuel : Nat) (st st2 : AgentState),
        call_agent llm st = .ok st2 → should_continue st2 ≠ "continue" →
        graph_loop llm (fuel + 1) st = (.ok st2, st2)) := by
  intro s
  have hchar : should_continue s = "continue" ↔
      ∃ c tcs, s.messages.getLast? = some (.ai c tcs) ∧ tcs ≠ [] := by
    unfold should_continue
    cases h : s.messages.getLast? with
    | none => simp
    | some m =>
      cases m with
      | human c => simp
      | system c => simp
      | tool c i => simp
      | ai c tcs =>
        cases tcs with
        | nil => simp
        | cons a l =>
          constructor
          · intro _
            exact ⟨c, a :: l, rfl, by simp⟩
          · intro _
            rfl
  have hor : should_continue s = "continue" ∨ should_continue s = "end" := by
    unfold should_continue
    cases s.messages.getLast? with
    | none => exact Or.inr rfl
    | some m =>
      cases m with
      | human c => exact Or.inr rfl
      | system c => exact Or.inr rfl
      | tool c i => exact Or.inr rfl
      | ai c tcs =>
        cases tcs with
        | nil => exact Or.inr rfl
        | cons a l => exact Or.inl rfl
  refine ⟨hchar, hor, ?_, ?_, ?_, ?_⟩
  · intro hne
    rcases hor with hc | he
    · exact absurd (hchar.mp hc) hne
    · exact he
  · intro h
    unfold should_continue
    rw [h]
    rfl
  · intro llm fuel st st2 hca hsc
    simp only [graph_loop]
    rw [hca]
    simp [hsc]
  · intro llm fuel st st2 hca hsc
    simp only [graph_loop]
    rw [hca]
    simp [hsc]

/-- C2 witness: the characterization and the routing evaluated on concrete
states and a concrete oracle. -/
theorem C2_should_continue_routing_witness :
    should_continue ⟨[], none⟩ = "end" ∧
    should_continue ⟨[Message.ai "go" [⟨"1", ToolCall.trim_video "v" 0 1⟩]], none⟩
      = "continue" ∧
    graph_loop llm_end 1 ⟨[Message.human "hi"], none⟩
      = (.ok ⟨[Message.human "hi", Message.ai "done" []], none⟩,
         ⟨[Message.human "hi", Message.ai "done" []], none⟩) := by
  refine ⟨(C2_should_continue_routing ⟨[], none⟩).2.2.2.1 rfl, ?_, ?_⟩
  · exact (C2_should_continue_routing
      ⟨[Message.ai "go" [⟨"1", ToolCall.trim_video "v" 0 1⟩]], none⟩).1.mpr
      ⟨"go", [⟨"1", ToolCall.trim_video "v" 0 1⟩], rfl, by simp⟩
  · exact (C2_should_continue_routing ⟨[], none⟩).2.2.2.2.2 llm_end 0
      ⟨[Message.human "hi"], none⟩ ⟨[Message.human "hi", Message.ai "done" []], none⟩
      rfl (by decide)

/-- The persisted store after `process_request` is, in both the success and
the error branch, the store produced by the graph invocation. -/
lemma process_request_snd (llm : LLM) (fuel : Nat) (ui : String)
    (vu : Option String) (tid : String) (store : Store) :
    (process_request llm fuel ui vu tid store).2
      = (graph_invoke llm fuel ⟨[.human ui], vu⟩ tid store).2 := by
  unfold process_request
  rcases hg : graph_invoke llm fuel ⟨[.human ui], vu⟩ tid store with ⟨res, store2⟩
  cases res <;> simp [hg]

/-- C3: persisted history is scoped by thread id: a `process_request` under
thread id `t1` leaves the persisted state of any other thread `t2`
untouched, so `get_conversation_history t2` is unchanged by it; and the
history of `t2` depends only on the store entry of `t2`. -/
theorem C3_thread_isolation :
    ∀ (llm : LLM) (fuel : Nat) (user_input : String) (video_uri : Option String)
      (t1 t2 : String) (store : Store), t1 ≠ t2 →
      (process_request llm fuel user_input video_uri t1 store).2 t2 = store t2 ∧
      get_conversation_history t2 (process_request llm fuel user_input video_uri t1 store).2
        = get_conversation_history t2 store ∧
      (∀ store2 : Store, store2 t2 = store t2 →
        get_conversation_history t2 store2 = get_conversation_history t2 store) := by
  intro llm fuel ui vu t1 t2 store h
  have hupd : ∀ (st : Store) (v : AgentState), Store.update st t1 v t2 = st t2 := by
    intro st v
    unfold Store.update
    rw [if_neg (Ne.symm h)]
  have hsnd : (process_request llm fuel ui vu t1 store).2 t2 = store t2 := by
    rw [process_request_snd]
    exact hupd store _
  have hdep : ∀ store2 : Store, store2 t2 = store t2 →
      get_conversation_history t2 store2 = get_conversation_history t2 store := by
    intro store2 heq
    unfold get_conversation_history
    rw [heq]
  exact ⟨hsnd, hdep _ hsnd, hdep⟩

/-- C3 witness: thread "b" is untouched by a run on thread "a". -/
theorem C3_thread_isolation_witness :
    (("a" : String) ≠ "b") ∧
    (process_request llm_end 1 "hi" none "a" emptyStore).2 "b" = emptyStore "b" ∧
    get_conversation_history "b" (process_request llm_end 1 "hi" none "a" emptyStore).2
      = get_conversation_history "b" emptyStore :=
  ⟨by decide,
   ((C3_thread_isolation llm_end 1 "hi" none "a" "b" emptyStore) (by decide)).1,
   ((C3_thread_isolation llm_end 1 "hi" none "a" "b" emptyStore) (by decide)).2.1⟩

/-- C5: `process_request` never propagates an exception: an erroring graph
run yields the error dict (success false, the prefixed error text, empty
messages, the caller's video URI), a successful run yields success true
with the final output extracted as the content of the last AIMessage with
non-empty content, and "No response generated" when no AIMessage has
non-empty content. -/
theorem C5_process_request_error_handling :
    ∀ (llm : LLM) (fuel : Nat) (user_input : String) (video_uri : Option String)
      (thread_id : String) (store : Store),
      (∀ e store2,
        graph_invoke llm fuel ⟨[.human user_input], video_uri⟩ thread_id store
          = (.error e, store2) →
        process_request llm fuel user_input video_uri thread_id store
          = (⟨"Error processing request: " ++ e, [], video_uri, false⟩, store2)) ∧
      (∀ fs store2,
        graph_invoke llm fuel ⟨[.human user_input], video_uri⟩ thread_id store
          = (.ok fs, store2) →
        process_request llm fuel user_input video_uri thread_id store
          = (⟨extract_final_output fs.messages, fs.messages,
              fs.current_video_uri, true⟩, store2)) ∧
      (∀ ms : List Message, (∀ c tcs, Message.ai c tcs ∈ ms → c = "") →
        extract_final_output ms = "No response generated") ∧
      (∀ (l1 l2 : List Message) (c : String) (tcs : List ToolCallReq),
        c ≠ "" → (∀ c2 tcs2, Message.ai c2 tcs2 ∈ l2 → c2 = "") →
        extract_final_output (l1 ++ Message.ai c tcs :: l2) = c) := by
  intro llm fuel ui vu tid store
  refine ⟨?_, ?_, ?_, ?_⟩
  · intro e store2 hg
    unfold process_request
    rw [hg]
  · intro fs store2 hg
    unfold process_request
    rw [hg]
  · intro ms hms
    unfold extract_final_output
    have hnone : ms.reverse.find?
        (fun msg => match msg with | .ai c _ => c != "" | _ => false) = none := by
      apply List.find?_eq_none.mpr
      intro x hx
      cases x with
      | ai c tcs =>
          have hc : c = "" := hms c tcs (List.mem_reverse.mp hx)
          simp [hc]
      | human c => simp
      | system c => simp
      | tool c i => simp
    rw [hnone]
  · intro l1 l2 c tcs hc hl2
    unfold extract_final_output
    have hnone : l2.reverse.find?
        (fun msg => match msg with | .ai c _ => c != "" | _ => false) = none := by
      apply List.find?_eq_none.mpr
      intro x hx
      cases x with
      | ai c2 tcs2 =>
          have hc2 : c2 = "" := hl2 c2 tcs2 (List.mem_reverse.mp hx)
          simp [hc2]
      | human c2 => simp
      | system c2 => simp
      | tool c2 i => simp
    have hone : ([Message.ai c tcs] : List Message).find?
        (fun msg => match msg with | .ai c _ => c != "" | _ => false)
        = some (Message.ai c tcs) := by
      have hb : (c != "") = true := by simpa using hc
      simp [List.find?, hb]
    rw [List.reverse_append, List.reverse_cons, List.find?_append, List.find?_append,
      hnone, hone]
    rfl

/-- C5 witness: a successful run of a concrete oracle, the extraction on a
concrete message list, and the default on a list with no AI content. -/
theorem C5_process_request_error_handling_witness :
    process_request llm_end 1 "hi" none "t" emptyStore
      = (⟨"done", [Message.human "hi", Message.ai "done" []], none, true⟩,
         Store.update emptyStore "t" ⟨[Message.human "hi", Message.ai "done" []], none⟩) ∧
    extract_final_output [Message.human "hi", Message.ai "done" []] = "done" ∧
    extract_final_output [Message.human "hi"] = "No response generated" := by
  refine ⟨?_, ?_, ?_⟩
  · exact (C5_process_request_error_handling llm_end 1 "hi" none "t" emptyStore).2.1
      ⟨[Message.human "hi", Message.ai "done" []], none⟩
      (Store.update emptyStore "t" ⟨[Message.human "hi", Message.ai "done" []], none⟩) rfl
  · exact (C5_process_request_error_handling llm_end 1 "hi" none "t" emptyStore).2.2.2
      [Message.human "hi"] [] "done" [] (by decide)
      (fun c2 tcs2 hmem => absurd hmem (List.not_mem_nil _))
  · exact (C5_process_request_error_handling llm_end 1 "hi" none "t" emptyStore).2.2.1
      [Message.human "hi"] (fun c tcs hmem => by simp at hmem)

/-- C6 witness: the export formula evaluated at concrete arguments, with a
trailing-slash output URI. -/
theorem C6_export_video_media_formula_witness :
    PyDict.get (export_video "s3://in.mp4" "mp4" "s3://out//") "media"
      = some (.str "s3://out/exported_video.mp4") := by
  have h := (C6_export_video_media_formula "s3://in.mp4" "mp4" "s3://out//").2.1
  rw [h]
  decide

/-- C9, counterexample: the claim that every tool's "media" is an S3 URI
string fails for `export_video` with a non-S3 destination: at
`output_s3_uri = "junk"` the media is "junk/exported_video.mp4", which does
not start with "s3://". -/
theorem C9_counterexample_media_not_s3_uri :
    PyDict.get (runTool (.export_video "s3://in.mp4" "mp4" "junk")) "media"
      = some (.str "junk/exported_video.mp4") ∧
    ¬ ("s3://" : String).data <+: ("junk/exported_video.mp4" : String).data := by
  decide

/-- C9, amended: every tool returns a dict with exactly the keys "message"
and "media" in that order, the message a success string containing
"successfully"; the media is a single string for every tool except
`split_video`, whose media is a list of exactly two S3 URI strings; the
media string starts with "s3://" for every tool except `export_video`,
whose media starts with `output_s3_uri` stripped of trailing slashes, and
so is an S3 URI exactly when the caller-supplied destination is one. -/
theorem C9_amended_tool_result_shape :
    ∀ c : ToolCall,
      PyDict.keys (runTool c) = ["message", "media"] ∧
      (∃ m, PyDict.get (runTool c) "message" = some (.str m) ∧
        ("successfully" : String).data <:+: m.data) ∧
      (toolNameOf c ≠ "split_video" →
        ∃ u, PyDict.get (runTool c) "media" = some (.str u)) ∧
      (toolNameOf c = "split_video" →
        ∃ u1 u2, PyDict.get (runTool c) "media" = some (.list [u1, u2]) ∧
          ("s3://" : String).data <+: u1.data ∧ ("s3://" : String).data <+: u2.data) ∧
      (toolNameOf c ≠ "export_video" →
        ∀ u, PyDict.get (runTool c) "media" = some (.str u) →
          ("s3://" : String).data <+: u.data) ∧
      (∀ v2 f2 o2, c = .export_video v2 f2 o2 →
        ∃ u, PyDict.get (runTool c) "media" = some (.str u) ∧
          (rstripSlash o2).data <+: u.data) := by
  intro c
  cases c with
  | trim_video v s e =>
      refine ⟨rfl, ⟨"Video trimmed successfully", rfl, by decide⟩,
        fun _ => ⟨"s3://mock-bucket/output/trimmed_video.mp4", rfl⟩,
        fun h => by simp [toolNameOf] at h, ?_, fun v2 f2 o2 h => by simp at h⟩
      intro _ u hu
      injection Option.some.inj hu with h3
      subst h3
      decide
  | merge_clips c1 c2 =>
      refine ⟨rfl, ⟨"Clips merged successfully", rfl, by decide⟩,
        fun _ => ⟨"s3://mock-bucket/output/merged_video.mp4", rfl⟩,
        fun h => by simp [toolNameOf] at h, ?_, fun v2 f2 o2 h => by simp at h⟩
      intro _ u hu
      injection Option.some.inj hu with h3
      subst h3
      decide
  | crop_frame v x y w h =>
      refine ⟨rfl, ⟨"Video cropped successfully", rfl, by decide⟩,
        fun _ => ⟨"s3://mock-bucket/output/cropped_video.mp4", rfl⟩,
        fun h => by simp [toolNameOf] at h, ?_, fun v2 f2 o2 h => by simp at h⟩
      intro _ u hu
      injection Option.some.inj hu with h3
      subst h3
      decide
  | resize_video v w h =>
      refine ⟨rfl, ⟨"Video resized successfully", rfl, by decide⟩,
        fun _ => ⟨"s3://mock-bucket/output/resized_video.mp4", rfl⟩,
        fun h => by simp [toolNameOf] at h, ?_, fun v2 f2 o2 h => by simp at h⟩
      intro _ u hu
      injection Option.some.inj hu with h3
      subst h3
      decide
  | change_resolution v w h =>
      refine ⟨rfl, ⟨"Video resolution changed successfully", rfl, by decide⟩,
        fun _ => ⟨"s3://mock-bucket/output/resolution_changed_video.mp4", rfl⟩,
        fun h => by simp [toolNameOf] at h, ?_, fun v2 f2 o2 h => by simp at h⟩
      intro _ u hu
      injection Option.some.inj hu with h3
      subst h3
      decide
  | adjust_frame_rate v f =>
      refine ⟨rfl, ⟨"Frame rate adjusted successfully", rfl, by decide⟩,
        fun _ => ⟨"s3://mock-bucket/output/frame_rate_adjusted_video.mp4", rfl⟩,
        fun h => by simp [toolNameOf] at h, ?_, fun v2 f2 o2 h => by simp at h⟩
      intro _ u hu
      injection Option.some.inj hu with h3
      subst h3
      decide
  | color_correct v b c s =>
      refine ⟨rfl, ⟨"Color correction applied successfully", rfl, by decide⟩,
        fun _ => ⟨"s3://mock-bucket/output/color_corrected_video.mp4", rfl⟩,
        fun h => by simp [toolNameOf] at h, ?_, fun v2 f2 o2 h => by simp at h⟩
      intro _ u hu
      injection Option.some.inj hu with h3
      subst h3
      decide
  | add_transition c1 c2 t d =>
      refine ⟨rfl, ⟨"Transition added successfully", rfl, by decide⟩,
        fun _ => ⟨"s3://mock-bucket/output/transition_video.mp4", rfl⟩,
        fun h => by simp [toolNameOf] at h, ?_, fun v2 f2 o2 h => by simp at h⟩
      intro _ u hu
      injection Option.some.inj hu with h3
      subst h3
      decide
  | add_overlay v o x y =>
      refine ⟨rfl, ⟨"Overlay added successfully", rfl, by decide⟩,
        fun _ => ⟨"s3://mock-bucket/output/overlay_video.mp4", rfl⟩,
        fun h => by simp [toolNameOf] at h, ?_, fun v2 f2 o2 h => by simp at h⟩
      intro _ u hu
      injection Option.some.inj hu with h3
      subst h3
      decide
  | add_subtitles v s =>
      refine ⟨rfl, ⟨"Subtitles added successfully", rfl, by decide⟩,
        fun _ => ⟨"s3://mock-bucket/output/subtitled_video.mp4", rfl⟩,
        fun h => by simp [toolNameOf] at h, ?_, fun v2 f2 o2 h => by simp at h⟩
      intro _ u hu
      injection Option.some.inj hu with h3
      subst h3
      decide
  | add_captions v t s e x y =>
      refine ⟨rfl, ⟨"Captions added successfully", rfl, by decide⟩,
        fun _ => ⟨"s3://mock-bucket/output/captioned_video.mp4", rfl⟩,
        fun h => by simp [toolNameOf] at h, ?_, fun v2 f2 o2 h => by simp at h⟩
      intro _ u hu
      injection Option.some.inj hu with h3
      subst h3
      decide
  | add_soundtrack v a s =>
      refine ⟨rfl, ⟨"Soundtrack added successfully", rfl, by decide⟩,
        fun _ => ⟨"s3://mock-bucket/output/soundtrack_video.mp4", rfl⟩,
        fun h => by simp [toolNameOf] at h, ?_, fun v2 f2 o2 h => by simp at h⟩
      intro _ u hu
      injection Option.some.inj hu with h3
      subst h3
      decide
  | adjust_volume v f =>
      refine ⟨rfl, ⟨"Volume adjusted successfully", rfl, by decide⟩,
        fun _ => ⟨"s3://mock-bucket/output/volume_adjusted_video.mp4", rfl⟩,
        fun h => by simp [toolNameOf] at h, ?_, fun v2 f2 o2 h => by simp at h⟩
      intro _ u hu
      injection Option.some.inj hu with h3
      subst h3
      decide
  | remove_background_noise a =>
      refine ⟨rfl, ⟨"Background noise removed successfully", rfl, by decide⟩,
        fun _ => ⟨"s3://mock-bucket/output/cleaned_audio.mp3", rfl⟩,
        fun h => by simp [toolNameOf] at h, ?_, fun v2 f2 o2 h => by simp at h⟩
      intro _ u hu
      injection Option.some.inj hu with h3
      subst h3
      decide
  | generate_thumbnail v t =>
      refine ⟨rfl, ⟨"Thumbnail generated successfully", rfl, by decide⟩,
        fun _ => ⟨"s3://mock-bucket/output/thumbnail.png", rfl⟩,
        fun h => by simp [toolNameOf] at h, ?_, fun v2 f2 o2 h => by simp at h⟩
      intro _ u hu
      injection Option.some.inj hu with h3
      subst h3
      decide
  | add_intro v i =>
      refine ⟨rfl, ⟨"Intro added successfully", rfl, by decide⟩,
        fun _ => ⟨"s3://mock-bucket/output/intro_added_video.mp4", rfl⟩,
        fun h => by simp [toolNameOf] at h, ?_, fun v2 f2 o2 h => by simp at h⟩
      intro _ u hu
      injection Option.some.inj hu with h3
      subst h3
      decide
  | add_outro v o =>
      refine ⟨rfl, ⟨"Outro added successfully", rfl, by decide⟩,
        fun _ => ⟨"s3://mock-bucket/output/outro_added_video.mp4", rfl⟩,
        fun h => by simp [toolNameOf] at h, ?_, fun v2 f2 o2 h => by simp at h⟩
      intro _ u hu
      injection Option.some.inj hu with h3
      subst h3
      decide
  | split_video v t =>
      refine ⟨rfl, ⟨"Video split successfully", rfl, by decide⟩,
        fun h => absurd rfl h,
        fun _ => ⟨"s3://mock-bucket/output/split_part1.mp4",
                  "s3://mock-bucket/output/split_part2.mp4", rfl, by decide, by decide⟩,
        ?_, fun v2 f2 o2 h => by simp at h⟩
      intro _ u hu
      have h2 := Option.some.inj hu
      simp at h2
  | change_format v f =>
      refine ⟨rfl, ⟨"Video format changed successfully", rfl, by decide⟩,
        fun _ => ⟨"s3://mock-bucket/output/converted_video." ++ f, rfl⟩,
        fun h => by simp [toolNameOf] at h, ?_, fun v2 f2 o2 h => by simp at h⟩
      intro _ u hu
      injection Option.some.inj hu with h3
      subst h3
      rw [String.data_append]
      have hp : ("s3://" : String).data
          <+: ("s3://mock-bucket/output/converted_video." : String).data := by decide
      exact hp.trans (List.prefix_append _ _)
  | export_video v f o =>
      refine ⟨rfl, ⟨"Video exported successfully", rfl, by decide⟩,
        fun _ => ⟨rstripSlash o ++ "/exported_video." ++ f, rfl⟩,
        fun h => by simp [toolNameOf] at h,
        fun h => absurd rfl h, ?_⟩
      intro v2 f2 o2 h
      injection h with h1 h2 h3
      subst h2
      subst h3
      refine ⟨rstripSlash o ++ "/exported_video." ++ f, rfl, ?_⟩
      rw [String.data_append, String.data_append]
      exact (List.prefix_append _ _).trans (List.prefix_append _ _)

/-- C9 witness: the amended shape facts evaluated at concrete invocations
of `trim_video`, `split_video` and `export_video`. -/
theorem C9_amended_tool_result_shape_witness :
    (PyDict.keys (runTool (.trim_video "s3://v.mp4" 0 10)) = ["message", "media"] ∧
      ∃ u, PyDict.get (runTool (.trim_video "s3://v.mp4" 0 10)) "media" = some (.str u)) ∧
    ("s3://" : String).data
      <+: ("s3://mock-bucket/output/trimmed_video.mp4" : String).data ∧
    (∃ u1 u2, PyDict.get (runTool (.split_video "s3://v.mp4" 4)) "media"
      = some (.list [u1, u2]) ∧
      ("s3://" : String).data <+: u1.data ∧ ("s3://" : String).data <+: u2.data) ∧
    (∃ u, PyDict.get (runTool (.export_video "s3://v.mp4" "mp4" "s3://out")) "media"
      = some (.str u) ∧ (rstripSlash "s3://out").data <+: u.data) := by
  have h1 := C9_amended_tool_result_shape (.trim_video "s3://v.mp4" 0 10)
  have h2 := C9_amended_tool_result_shape (.split_video "s3://v.mp4" 4)
  have h3 := C9_amended_tool_result_shape (.export_video "s3://v.mp4" "mp4" "s3://out")
  refine ⟨⟨h1.1, h1.2.2.1 (by decide)⟩, ?_, h2.2.2.2.1 rfl, ?_⟩
  · exact h1.2.2.2.2.1 (by decide) "s3://mock-bucket/output/trimmed_video.mp4" rfl
  · exact h3.2.2.2.2.2 "s3://v.mp4" "mp4" "s3://out" rfl

